import Mathlib

/-!
Verification of the instrumentserver client session handler and config splitter.

This development shallowly embeds two source modules:

* `instrumentserver/client/core.py` — `BaseClient`: a request/reply client
  session over a REQ channel with a receive timeout.  State is made explicit
  (`BaseClient` structure); the transport's behaviour on one exchange is an
  explicit parameter (`RecvOutcome`); side channels (send calls, log records,
  warning records, channel closes) are recorded in an `Effects` structure;
  Python exceptions become the `PyExc` sum returned through `Except`.

* `instrumentserver/config.py` — `loadConfig`: splits an instrument-keyed
  configuration document into server / gui / full views.  YAML documents are
  modelled by the `Yaml` tree with mappings as association lists (`Doc`),
  mirroring Python dict semantics: `Doc.lookup` is key lookup, `Doc.pop` is
  `dict.pop`, `Doc.setKey` is `d[k] = v` (replace in place or append), and
  `Doc.mergeRight` is the `{**d1, **d2}` dict-literal merge.
-/

/-! ## Wire values -/

/-- Payload values carried in requests and replies are opaque to the client;
we model them as strings. -/
abbrev Value := String

/-- The error slot of a decoded `ServerResponse`, resolved into the four
shapes distinguished by the `isinstance` chain in `BaseClient.ask`:
`str`, `Warning`, other `Exception`, anything else. -/
inductive ErrObj where
  | str (s : String)
  | warning (w : String)
  | exc (e : String)
  | other (x : String)
deriving DecidableEq

/-- Decoded reply envelope: a message and an optional error descriptor
(`ServerResponse` in `instrumentserver/server/core.py`). -/
structure ServerResponse where
  message : Value
  error : Option ErrObj
deriving DecidableEq

/-- Outcome of one send/receive exchange as seen by the client: either a
decoded reply arrives, or the receive hits the socket timeout
(`zmq.error.Again`). -/
inductive RecvOutcome where
  | reply (ret : ServerResponse)
  | timeout
deriving DecidableEq

/-- Python exceptions surfaced by the embedded code. -/
inductive PyExc where
  | runtimeError (msg : String)
  | typeError (msg : String)
  | attributeError (msg : String)
  | serverException (e : String)
deriving DecidableEq

/-! ## Client session state -/

/-- A live REQ channel: identity (to observe wholesale replacement), the
address it is connected to, and the receive timeout set on it. -/
structure Channel where
  chanId : Nat
  boundAddr : String
  recvTimeout : Nat
deriving DecidableEq

/-- The state of a `BaseClient` session (fields as in `__init__`).
`nextId` is a fresh-identity supply so that a channel built by a later
`connect` is distinguishable from earlier ones. -/
structure BaseClient where
  connected : Bool
  context : Option Nat
  socket : Option Channel
  host : String
  port : Nat
  addr : String
  raise_exceptions : Bool
  recv_timeout : Nat
  nextId : Nat
deriving DecidableEq

/-- Observable side effects of one client operation: messages sent,
`logger.error` records, `warnings.warn` records, and the identities of
channels that were closed. -/
structure Effects where
  sent : List Value
  logged : List String
  warned : List String
  closedIds : List Nat
deriving DecidableEq

def Effects.empty : Effects :=
  { sent := [], logged := [], warned := [], closedIds := [] }

/-- `BaseClient.connect`: build a fresh context and REQ channel, set its
receive timeout to `recv_timeout`, connect it to `addr`, set
`connected = true`. -/
def BaseClient.connect (s : BaseClient) : BaseClient :=
  { s with
    context := some s.nextId
    socket := some { chanId := s.nextId, boundAddr := s.addr, recvTimeout := s.recv_timeout }
    connected := true
    nextId := s.nextId + 1 }

/-- `BaseClient.__init__`: start disconnected with no context or socket,
record the address string, and connect immediately when `connect` is true. -/
def BaseClient.init (host : String) (port : Nat) (connect : Bool) (timeout : Nat)
    (raise_exceptions : Bool) : BaseClient :=
  let s : BaseClient :=
    { connected := false
      context := none
      socket := none
      host := host
      port := port
      addr := "tcp://" ++ host ++ ":" ++ toString port
      raise_exceptions := raise_exceptions
      recv_timeout := timeout
      nextId := 0 }
  if connect then s.connect else s

/-- Result of one `ask` call: the Python return value (`none` models the
implicit `None` return on the non-raising timeout path) or the raised
exception, together with the post state and the recorded side effects. -/
structure AskResult where
  result : Except PyExc (Option Value)
  state : BaseClient
  effects : Effects

/-- `true` exactly when the call terminated by raising an exception. -/
def AskResult.aborts (r : AskResult) : Bool :=
  match r.result with
  | .error _ => true
  | .ok _ => false

/-- `BaseClient.ask`: raise on a disconnected session before any transport
interaction; otherwise send the message and dispatch on the exchange
outcome.  A decoded reply dispatches on the shape of its error slot exactly
as the `isinstance` chain does; a timeout closes the socket, reconnects to
the same address, and then raises or logs depending on
`raise_exceptions`. -/
def BaseClient.ask (s : BaseClient) (message : Value) (outcome : RecvOutcome) : AskResult :=
  if s.connected = false then
    { result := .error (.runtimeError "No connection yet.")
      state := s
      effects := Effects.empty }
  else
    match outcome with
    | .reply ret =>
      match ret.error with
      | none =>
          { result := .ok (some ret.message), state := s
            effects := { Effects.empty with sent := [message] } }
      | some (.str e) =>
          { result := .ok (some ret.message), state := s
            effects := { Effects.empty with sent := [message], logged := [e] } }
      | some (.warning w) =>
          { result := .ok (some ret.message), state := s
            effects := { Effects.empty with sent := [message], warned := [w] } }
      | some (.exc e) =>
          if s.raise_exceptions then
            { result := .error (.serverException e), state := s
              effects := { Effects.empty with sent := [message] } }
          else
            { result := .ok (some ret.message), state := s
              effects := { Effects.empty with sent := [message],
                                              logged := ["Server raised the following exception: " ++ e] } }
      | some (.other x) =>
          if s.raise_exceptions then
            { result := .error (.typeError ("Unknown Error Type: " ++ x)), state := s
              effects := { Effects.empty with sent := [message] } }
          else
            { result := .ok (some ret.message), state := s
              effects := { Effects.empty with sent := [message],
                                              logged := ["Unknown Error Type: " ++ x] } }
    | .timeout =>
      match s.socket with
      | none =>
          { result := .error (.attributeError "NoneType object has no attribute close")
            state := s
            effects := { Effects.empty with sent := [message] } }
      | some c =>
          let s2 := BaseClient.connect s
          if s.raise_exceptions then
            { result := .error (.runtimeError "Server did not reply before timeout.")
              state := s2
              effects := { Effects.empty with sent := [message], closedIds := [c.chanId] } }
          else
            { result := .ok none
              state := s2
              effects := { Effects.empty with sent := [message], closedIds := [c.chanId],
                                              logged := ["Server did not reply before timeout."] } }

/-- `BaseClient.disconnect`: `self.socket.close()` then `connected = False`.
When the session was constructed with `connect=False` and never connected,
`self.socket` is still `None` and the attribute access raises. -/
def BaseClient.disconnect (s : BaseClient) : Except PyExc (BaseClient × Effects) :=
  match s.socket with
  | none => .error (.attributeError "NoneType object has no attribute close")
  | some c =>
      .ok ({ s with connected := false }, { Effects.empty with closedIds := [c.chanId] })

/-! ## Client lemmas -/

/-- Computation of `ask` on a timeout for a connected session with a live
channel: the old channel is closed, `connect` rebuilds the session, and the
result depends on `raise_exceptions`. -/
theorem ask_timeout_eq (s : BaseClient) (m : Value) (c : Channel)
    (hconn : s.connected = true) (hsock : s.socket = some c) :
    s.ask m .timeout =
      if s.raise_exceptions then
        { result := .error (.runtimeError "Server did not reply before timeout.")
          state := s.connect
          effects := { Effects.empty with sent := [m], closedIds := [c.chanId] } }
      else
        { result := .ok none
          state := s.connect
          effects := { Effects.empty with sent := [m], closedIds := [c.chanId],
                                          logged := ["Server did not reply before timeout."] } } := by
  simp [BaseClient.ask, hconn, hsock]

/-! ## Client claims -/

/-- C1: when `ask` on a connected session hits the receive timeout, the
session closes the current channel, immediately reconstructs and rebinds a
new one to the same address, `connected` remains `true`, the call raises
the timeout error (a `RuntimeError` in the source, the spec's
*TimeoutError*) when `raise_exceptions` is `true` and otherwise only logs
the failure, and the original message is sent exactly once, never resent. -/
theorem C1_timeout_replaces_channel (s : BaseClient) (m : Value) (c : Channel)
    (hconn : s.connected = true) (hsock : s.socket = some c)
    (hfresh : c.chanId < s.nextId) :
    (s.ask m .timeout).effects.closedIds = [c.chanId] ∧
    (s.ask m .timeout).state.socket =
      some { chanId := s.nextId, boundAddr := s.addr, recvTimeout := s.recv_timeout } ∧
    (s.ask m .timeout).state.socket ≠ some c ∧
    (s.ask m .timeout).state.addr = s.addr ∧
    (s.ask m .timeout).state.connected = true ∧
    (s.raise_exceptions = true →
      (s.ask m .timeout).result =
        .error (.runtimeError "Server did not reply before timeout.")) ∧
    (s.raise_exceptions = false →
      (s.ask m .timeout).result = .ok none ∧
      (s.ask m .timeout).effects.logged = ["Server did not reply before timeout."]) ∧
    (s.ask m .timeout).effects.sent = [m] := by
  have hne :
      (some { chanId := s.nextId, boundAddr := s.addr, recvTimeout := s.recv_timeout } :
        Option Channel) ≠ some c := by
    intro h
    have h2 : Channel.mk s.nextId s.addr s.recv_timeout = c := Option.some.inj h
    have h3 : c.chanId = s.nextId := by rw [← h2]
    rw [h3] at hfresh
    exact absurd hfresh (lt_irrefl _)
  rw [ask_timeout_eq s m c hconn hsock]
  cases hr : s.raise_exceptions <;>
    simp [BaseClient.connect, hne]

/-- C1 witness: a concrete connected session hitting a timeout. -/
theorem C1_timeout_replaces_channel_witness :
    (BaseClient.init "localhost" 5555 true 100 true).connected = true ∧
    ((BaseClient.init "localhost" 5555 true 100 true).ask "ping" .timeout).state.connected = true ∧
    ((BaseClient.init "localhost" 5555 true 100 true).ask "ping" .timeout).effects.closedIds = [0] ∧
    ((BaseClient.init "localhost" 5555 true 100 true).ask "ping" .timeout).effects.sent = ["ping"] := by
  have h := C1_timeout_replaces_channel (BaseClient.init "localhost" 5555 true 100 true) "ping"
      { chanId := 0, boundAddr := "tcp://localhost:5555", recvTimeout := 100 }
      rfl rfl Nat.zero_lt_one
  exact ⟨rfl, h.2.2.2.2.1, h.1, h.2.2.2.2.2.2.2⟩

/-- C2: with `raise_exceptions = false` on a connected session, no
classified error ever aborts `ask`: every decoded reply (error-free,
text-, warning-, exception- or unrecognized-tagged) returns the
envelope's message, and a timeout returns no value (`None`). -/
theorem C2_no_raise_never_aborts (s : BaseClient) (m : Value) (c : Channel)
    (hconn : s.connected = true) (hsock : s.socket = some c)
    (hraise : s.raise_exceptions = false) :
    (∀ ret : ServerResponse,
      (s.ask m (.reply ret)).result = .ok (some ret.message) ∧
      (s.ask m (.reply ret)).aborts = false) ∧
    (s.ask m .timeout).result = .ok none ∧
    (s.ask m .timeout).aborts = false := by
  refine ⟨fun ret => ?_, ?_, ?_⟩
  · rcases ret with ⟨msg, err⟩
    rcases err with _ | e
    · simp [BaseClient.ask, hconn, AskResult.aborts]
    · cases e <;> simp [BaseClient.ask, hconn, hraise, AskResult.aborts]
  · rw [ask_timeout_eq s m c hconn hsock, hraise]
    simp
  · rw [ask_timeout_eq s m c hconn hsock, hraise]
    simp [AskResult.aborts]

/-- C2 witness: a concrete non-raising session across an exception-tagged
reply and a timeout. -/
theorem C2_no_raise_never_aborts_witness :
    ((BaseClient.init "localhost" 5555 true 100 false).ask "q"
        (.reply { message := "v", error := some (.exc "boom") })).result = .ok (some "v") ∧
    ((BaseClient.init "localhost" 5555 true 100 false).ask "q" .timeout).result = .ok none := by
  have h := C2_no_raise_never_aborts (BaseClient.init "localhost" 5555 true 100 false) "q"
      { chanId := 0, boundAddr := "tcp://localhost:5555", recvTimeout := 100 }
      rfl rfl rfl
  exact ⟨(h.1 { message := "v", error := some (.exc "boom") }).1, h.2.1⟩

/-- C3: `ask` on a disconnected session raises the not-connected
`RuntimeError` (the spec's *StateError*) for every message and every
possible transport behaviour, with no send and no state change. -/
theorem C3_disconnected_state_error (s : BaseClient) (m : Value) (o : RecvOutcome)
    (hconn : s.connected = false) :
    s.ask m o =
      { result := .error (.runtimeError "No connection yet.")
        state := s
        effects := Effects.empty } := by
  simp [BaseClient.ask, hconn]

/-- C3 witness: a concrete disconnected session. -/
theorem C3_disconnected_state_error_witness :
    (BaseClient.init "localhost" 5555 false 100 true).ask "ping"
        (.reply { message := "v", error := none }) =
      { result := .error (.runtimeError "No connection yet.")
        state := BaseClient.init "localhost" 5555 false 100 true
        effects := Effects.empty } :=
  C3_disconnected_state_error (BaseClient.init "localhost" 5555 false 100 true) "ping"
    (.reply { message := "v", error := none }) rfl

/-- C4: on a connected session with `raise_exceptions = true`, an
exception-tagged reply makes `ask` raise the server's exception instead of
returning a value, the whole session state is unchanged (so `connected`
stays `true` and the channel is neither closed nor replaced). -/
theorem C4_exception_reply_frame (s : BaseClient) (m : Value) (ret : ServerResponse) (e : String)
    (hconn : s.connected = true) (hraise : s.raise_exceptions = true)
    (herr : ret.error = some (.exc e)) :
    (s.ask m (.reply ret)).result = .error (.serverException e) ∧
    (s.ask m (.reply ret)).state = s ∧
    (s.ask m (.reply ret)).state.connected = true ∧
    (s.ask m (.reply ret)).state.socket = s.socket ∧
    (s.ask m (.reply ret)).effects.closedIds = [] := by
  rcases ret with ⟨msg, err⟩
  simp only at herr
  subst herr
  simp [BaseClient.ask, hconn, hraise, Effects.empty]

/-- C4 witness: a concrete raising session receiving an exception-tagged
reply. -/
theorem C4_exception_reply_frame_witness :
    ((BaseClient.init "localhost" 5555 true 100 true).ask "q"
        (.reply { message := "v", error := some (.exc "boom") })).result =
      .error (.serverException "boom") ∧
    ((BaseClient.init "localhost" 5555 true 100 true).ask "q"
        (.reply { message := "v", error := some (.exc "boom") })).state.connected = true := by
  have h := C4_exception_reply_frame (BaseClient.init "localhost" 5555 true 100 true) "q"
      { message := "v", error := some (.exc "boom") } "boom" rfl rfl rfl
  exact ⟨h.1, h.2.2.1⟩

/-- C5 counterexample: on a connected session with `raise_exceptions =
false`, a reply whose error slot has an unrecognized shape does *not*
abort the call — `ask` logs the failure and returns the message — so the
unrecognized-shape failure is not surfaced as fatal regardless of the
flag. -/
theorem C5_counterexample :
    (BaseClient.init "localhost" 5555 true 100 false).connected = true ∧
    ((BaseClient.init "localhost" 5555 true 100 false).ask "q"
        (.reply { message := "v", error := some (.other "weird") })).aborts = false ∧
    ((BaseClient.init "localhost" 5555 true 100 false).ask "q"
        (.reply { message := "v", error := some (.other "weird") })).result = .ok (some "v") :=
  ⟨rfl, rfl, rfl⟩

/-- C5 amended: an unrecognized error shape is fatal for the call exactly
when `raise_exceptions = true` (raising the `TypeError`, the spec's
*UnrecognizedErrorShape*); with the flag `false` it is only logged and the
envelope's message is returned. -/
theorem C5_unrecognized_gated_by_flag (s : BaseClient) (m : Value) (ret : ServerResponse)
    (x : String) (hconn : s.connected = true) (herr : ret.error = some (.other x)) :
    (s.raise_exceptions = true →
      (s.ask m (.reply ret)).result = .error (.typeError ("Unknown Error Type: " ++ x))) ∧
    (s.raise_exceptions = false →
      (s.ask m (.reply ret)).result = .ok (some ret.message) ∧
      (s.ask m (.reply ret)).effects.logged = ["Unknown Error Type: " ++ x]) := by
  rcases ret with ⟨msg, err⟩
  simp only at herr
  subst herr
  constructor
  · intro hr
    simp [BaseClient.ask, hconn, hr]
  · intro hr
    simp [BaseClient.ask, hconn, hr]

/-- C5 witness: concrete sessions on both sides of the flag. -/
theorem C5_unrecognized_gated_by_flag_witness :
    ((BaseClient.init "localhost" 5555 true 100 true).ask "q"
        (.reply { message := "v", error := some (.other "weird") })).result =
      .error (.typeError ("Unknown Error Type: " ++ "weird")) := by
  have h := C5_unrecognized_gated_by_flag (BaseClient.init "localhost" 5555 true 100 true) "q"
      { message := "v", error := some (.other "weird") } "weird" rfl rfl
  exact h.1 rfl

/-- C10: a session constructed with `connect = false` has no channel
handle, so `disconnect` raises (the `None` socket has no `close`) instead
of leaving the session cleanly disconnected; after a `connect`,
`disconnect` succeeds and clears `connected`. -/
theorem C10_disconnect_before_connect_fails (host : String) (port timeout : Nat) (r : Bool) :
    (BaseClient.init host port false timeout r).socket = none ∧
    (BaseClient.init host port false timeout r).disconnect =
      .error (.attributeError "NoneType object has no attribute close") ∧
    ∃ s2 eff, (BaseClient.init host port false timeout r).connect.disconnect = .ok (s2, eff) ∧
      s2.connected = false := by
  refine ⟨rfl, rfl,
    { (BaseClient.init host port false timeout r).connect with connected := false },
    { Effects.empty with closedIds := [0] }, rfl, rfl⟩

/-! ## YAML documents

Values loaded from the YAML configuration file.  Mappings are association
lists in document order, mirroring Python's insertion-ordered dicts (keys
are unique in any loaded document). -/

inductive Yaml where
  | null
  | bool (b : Bool)
  | str (s : String)
  | num (n : Int)
  | dict (entries : List (String × Yaml))

mutual
def Yaml.beq : Yaml → Yaml → Bool
  | .null, .null => true
  | .bool a, .bool b => a == b
  | .str a, .str b => a == b
  | .num a, .num b => a == b
  | .dict a, .dict b => Yaml.beqList a b
  | _, _ => false

def Yaml.beqList : List (String × Yaml) → List (String × Yaml) → Bool
  | [], [] => true
  | (k1, v1) :: t1, (k2, v2) :: t2 => k1 == k2 && Yaml.beq v1 v2 && Yaml.beqList t1 t2
  | _, _ => false
end

mutual
theorem Yaml.beq_refl : (a : Yaml) → Yaml.beq a a = true
  | .null => rfl
  | .bool b => by simp [Yaml.beq]
  | .str s => by simp [Yaml.beq]
  | .num n => by simp [Yaml.beq]
  | .dict d => Yaml.beqList_refl d

theorem Yaml.beqList_refl : (l : List (String × Yaml)) → Yaml.beqList l l = true
  | [] => rfl
  | (k, v) :: t => by
      simp [Yaml.beqList, Yaml.beq_refl v, Yaml.beqList_refl t]
end

mutual
theorem Yaml.eq_of_beq : (a b : Yaml) → Yaml.beq a b = true → a = b
  | .null, .null, _ => rfl
  | .bool x, .bool y, h => by simp [Yaml.beq] at h; rw [h]
  | .str x, .str y, h => by simp [Yaml.beq] at h; rw [h]
  | .num x, .num y, h => by simp [Yaml.beq] at h; rw [h]
  | .dict x, .dict y, h =>
      congrArg Yaml.dict (Yaml.eqList_of_beqList x y (by simpa [Yaml.beq] using h))
  | .null, .bool _, h => nomatch h
  | .null, .str _, h => nomatch h
  | .null, .num _, h => nomatch h
  | .null, .dict _, h => nomatch h
  | .bool _, .null, h => nomatch h
  | .bool _, .str _, h => nomatch h
  | .bool _, .num _, h => nomatch h
  | .bool _, .dict _, h => nomatch h
  | .str _, .null, h => nomatch h
  | .str _, .bool _, h => nomatch h
  | .str _, .num _, h => nomatch h
  | .str _, .dict _, h => nomatch h
  | .num _, .null, h => nomatch h
  | .num _, .bool _, h => nomatch h
  | .num _, .str _, h => nomatch h
  | .num _, .dict _, h => nomatch h
  | .dict _, .null, h => nomatch h
  | .dict _, .bool _, h => nomatch h
  | .dict _, .str _, h => nomatch h
  | .dict _, .num _, h => nomatch h

theorem Yaml.eqList_of_beqList :
    (l1 l2 : List (String × Yaml)) → Yaml.beqList l1 l2 = true → l1 = l2
  | [], [], _ => rfl
  | (k1, v1) :: t1, (k2, v2) :: t2, h => by
      simp only [Yaml.beqList, Bool.and_eq_true, beq_iff_eq] at h
      rw [h.1.1, Yaml.eq_of_beq v1 v2 h.1.2, Yaml.eqList_of_beqList t1 t2 h.2]
  | [], _ :: _, h => nomatch h
  | _ :: _, [], h => nomatch h
end

instance : DecidableEq Yaml := fun a b =>
  if h : Yaml.beq a b = true then isTrue (Yaml.eq_of_beq a b h)
  else isFalse (fun he => h (he ▸ Yaml.beq_refl a))

/-- A YAML mapping in document order: Python dict with unique keys. -/
abbrev Doc := List (String × Yaml)

/-- Key lookup in a mapping (`d[k]` / `k in d`). -/
def Doc.lookup : Doc → String → Option Yaml
  | [], _ => none
  | (k1, v) :: rest, k => if k1 = k then some v else Doc.lookup rest k

/-- `dict.pop(k)`: the mapping with the entry for `k` removed. -/
def Doc.pop : Doc → String → Doc
  | [], _ => []
  | (k1, v) :: rest, k => if k1 = k then Doc.pop rest k else (k1, v) :: Doc.pop rest k

/-- `d[k] = v` on a Python dict: replace the value in place when the key is
present, append the new entry otherwise. -/
def Doc.setKey : Doc → String → Yaml → Doc
  | [], k, v => [(k, v)]
  | (k1, v1) :: rest, k, v =>
    if k1 = k then (k, v) :: rest else (k1, v1) :: Doc.setKey rest k v

/-- The dict-literal merge `{**d1, **d2}`: start from `d1` and set every
entry of `d2` in order, so `d2` wins on key collisions. -/
def Doc.mergeRight (d1 : Doc) : Doc → Doc
  | [] => d1
  | (k, v) :: rest => Doc.mergeRight (Doc.setKey d1 k v) rest

/-! ## Config splitter (`instrumentserver/config.py`) -/

/-- Centralised point of extra fields for the server with its default as
value. -/
def SERVERFIELDS : Doc := [("initialize", Yaml.bool true)]

/-- The canonical default GUI class path (`GUIFIELD['type']`). -/
def GUITYPE : Yaml := Yaml.str "instrumentserver.gui.instruments.GenericInstrument"

/-- Extra fields for the GUI: default class path and empty kwargs. -/
def GUIFIELD : Doc := [("type", GUITYPE), ("kwargs", Yaml.dict [])]

/-- The server-field extraction loop of `loadConfig` (lines 40-47): for
each recognized field in order, pop it from the instrument's mapping —
failing with the `AttributeError` when it is explicitly null — or fall
back to the declared default.  Returns the extracted server fields and the
remaining mapping. -/
def extractServerFields : Doc → Doc → Except PyExc (Doc × Doc)
  | [], configDict => .ok ([], configDict)
  | (field, defVal) :: rest, configDict =>
    match Doc.lookup configDict field with
    | some fieldSetting =>
      if fieldSetting = Yaml.null then
        .error (.attributeError ("\"" ++ field ++ "\" field cannot be None"))
      else
        match extractServerFields rest (Doc.pop configDict field) with
        | .ok (srv, rem) => .ok ((field, fieldSetting) :: srv, rem)
        | .error e => .error e
    | none =>
      match extractServerFields rest configDict with
      | .ok (srv, rem) => .ok ((field, defVal) :: srv, rem)
      | .error e => .error e

/-- The gui extraction of `loadConfig` (lines 49-64): pop the `gui`
sub-document if present — failing with the `AttributeError` when it is
explicitly null — normalize a `type` entry equal to `generic` or `Generic`
to the canonical class path, default an absent `type` entry, and fall back
to the full default descriptor when `gui` is absent.  A present non-null
non-mapping `gui` value raises a `TypeError` when indexed.  Returns the
gui config and the remaining mapping. -/
def processGui (configDict : Doc) : Except PyExc (Doc × Doc) :=
  match Doc.lookup configDict "gui" with
  | some guiVal =>
    match guiVal with
    | Yaml.null => .error (.attributeError "\"gui\" field cannot be None")
    | Yaml.dict guiDict =>
      match Doc.lookup guiDict "type" with
      | some t =>
        if t = Yaml.str "generic" ∨ t = Yaml.str "Generic" then
          .ok (Doc.setKey guiDict "type" GUITYPE, Doc.pop configDict "gui")
        else
          .ok (guiDict, Doc.pop configDict "gui")
      | none =>
        .ok (Doc.setKey guiDict "type" GUITYPE, Doc.pop configDict "gui")
    | _ => .error (.typeError "gui field does not support item assignment")
  | none => .ok (GUIFIELD, configDict)

/-- The three per-instrument views produced by `loadConfig`, plus the
residual mapping (the instrument's entry in the cleaned station config
that is dumped to the temporary file). -/
structure SplitResult where
  serverCfg : Doc
  guiCfg : Doc
  fullCfg : Doc
  residual : Doc
deriving DecidableEq

/-- The body of the `loadConfig` loop for one instrument: extract the
server fields, extract the gui config, and build
`fullConfig[name] = ⟨gui-entry, **remaining, **serverConfig[name]⟩`. -/
def processInstrument (configDict : Doc) : Except PyExc SplitResult :=
  match extractServerFields SERVERFIELDS configDict with
  | .error e => .error e
  | .ok (srv, rem1) =>
    match processGui rem1 with
    | .error e => .error e
    | .ok (gui, rem2) =>
      .ok { serverCfg := srv
            guiCfg := gui
            fullCfg := Doc.mergeRight (Doc.mergeRight [("gui", Yaml.dict gui)] rem2) srv
            residual := rem2 }

/-- `loadConfig` over the `instruments` mapping: process each instrument in
document order, propagating the first failure. -/
def loadConfig : List (String × Doc) → Except PyExc (List (String × SplitResult))
  | [] => .ok []
  | (name, configDict) :: rest =>
    match processInstrument configDict with
    | .error e => .error e
    | .ok r =>
      match loadConfig rest with
      | .error e => .error e
      | .ok out => .ok ((name, r) :: out)

/-! ## Mapping lemmas -/

/-- After `d[k] = v`, looking up `k` yields `v`. -/
theorem Doc.lookup_setKey_self (d : Doc) (k : String) (v : Yaml) :
    Doc.lookup (Doc.setKey d k v) k = some v := by
  induction d with
  | nil => simp [Doc.setKey, Doc.lookup]
  | cons hd tl ih =>
    rcases hd with ⟨k1, v1⟩
    by_cases h : k1 = k
    · simp [Doc.setKey, Doc.lookup, h]
    · simp [Doc.setKey, Doc.lookup, h, ih]

/-- Popping one key leaves lookups of any other key unchanged. -/
theorem Doc.lookup_pop_ne (d : Doc) (k k' : String) (h : k ≠ k') :
    Doc.lookup (Doc.pop d k') k = Doc.lookup d k := by
  induction d with
  | nil => rfl
  | cons hd tl ih =>
    rcases hd with ⟨k1, v1⟩
    by_cases h1 : k1 = k'
    · have h2 : k1 ≠ k := fun he => h (he ▸ h1 ▸ rfl)
      simp [Doc.pop, Doc.lookup, h1, h2, Ne.symm h, ih]
    · by_cases h2 : k1 = k
      · simp [Doc.pop, Doc.lookup, h1, h2, h]
      · simp [Doc.pop, Doc.lookup, h1, h2, ih]

/-! ## Splitter lemmas -/

/-- Computation of the server-field extraction for the concrete
`SERVERFIELDS`: pop a present non-null `initialize` value, reject a null
one, default an absent one. -/
theorem extractServer_eq (d : Doc) :
    extractServerFields SERVERFIELDS d =
      match Doc.lookup d "initialize" with
      | some v =>
        if v = Yaml.null then
          .error (.attributeError "\"initialize\" field cannot be None")
        else .ok ([("initialize", v)], Doc.pop d "initialize")
      | none => .ok ([("initialize", Yaml.bool true)], d) := by
  cases hv : Doc.lookup d "initialize" with
  | none => simp [extractServerFields, SERVERFIELDS, hv]
  | some v =>
    by_cases hn : v = Yaml.null
    · simp [extractServerFields, SERVERFIELDS, hv, hn]
    · simp [extractServerFields, SERVERFIELDS, hv, hn]

/-- Server-field extraction when `initialize` is explicitly null. -/
theorem extractServer_eq_null (d : Doc) (h : Doc.lookup d "initialize" = some Yaml.null) :
    extractServerFields SERVERFIELDS d =
      .error (.attributeError "\"initialize\" field cannot be None") := by
  simp [extractServerFields, SERVERFIELDS, h]

/-- Server-field extraction when `initialize` is absent. -/
theorem extractServer_eq_none (d : Doc) (h : Doc.lookup d "initialize" = none) :
    extractServerFields SERVERFIELDS d = .ok ([("initialize", Yaml.bool true)], d) := by
  simp [extractServerFields, SERVERFIELDS, h]

/-- Server-field extraction when `initialize` is present and non-null. -/
theorem extractServer_eq_some (d : Doc) (v : Yaml) (h : Doc.lookup d "initialize" = some v)
    (hn : v ≠ Yaml.null) :
    extractServerFields SERVERFIELDS d = .ok ([("initialize", v)], Doc.pop d "initialize") := by
  simp [extractServerFields, SERVERFIELDS, h, hn]

/-- A successful server-field extraction yields a one-entry non-null
server config and does not disturb the `gui` entry of the remainder. -/
theorem extractServer_shape (d srv rem : Doc)
    (h : extractServerFields SERVERFIELDS d = .ok (srv, rem)) :
    ∃ v, srv = [("initialize", v)] ∧ v ≠ Yaml.null ∧
      Doc.lookup rem "gui" = Doc.lookup d "gui" := by
  rw [extractServer_eq] at h
  split at h
  next v heq =>
    split at h
    next => cases h
    next hn =>
      simp only [Except.ok.injEq, Prod.mk.injEq] at h
      refine ⟨v, h.1.symm, hn, ?_⟩
      rw [← h.2]
      exact Doc.lookup_pop_ne d "gui" "initialize" (by decide)
  next heq =>
    simp only [Except.ok.injEq, Prod.mk.injEq] at h
    exact ⟨Yaml.bool true, h.1.symm, by decide, by rw [h.2]⟩

/-- Inversion of a successful `processInstrument`: both extraction stages
succeeded and the result record is assembled from their outputs. -/
theorem processInstrument_inv (d : Doc) (r : SplitResult)
    (h : processInstrument d = .ok r) :
    ∃ srv rem1 gui rem2,
      extractServerFields SERVERFIELDS d = .ok (srv, rem1) ∧
      processGui rem1 = .ok (gui, rem2) ∧
      r = { serverCfg := srv, guiCfg := gui,
            fullCfg := Doc.mergeRight (Doc.mergeRight [("gui", Yaml.dict gui)] rem2) srv,
            residual := rem2 } := by
  unfold processInstrument at h
  split at h
  next e heq => cases h
  next srv rem1 heq =>
    split at h
    next e2 heq2 => cases h
    next gui rem2 heq2 =>
      simp only [Except.ok.injEq] at h
      exact ⟨srv, rem1, gui, rem2, heq, heq2, h.symm⟩

/-- A successful `loadConfig` processed every listed instrument
successfully and recorded its split under its name. -/
theorem loadConfig_ok_of_mem (insts : List (String × Doc))
    (out : List (String × SplitResult)) (h : loadConfig insts = .ok out) :
    ∀ p ∈ insts, ∃ r, processInstrument p.2 = .ok r ∧ (p.1, r) ∈ out := by
  induction insts generalizing out with
  | nil => intro p hp; cases hp
  | cons hd tl ih =>
    rcases hd with ⟨name, dcfg⟩
    unfold loadConfig at h
    split at h
    next e heq => cases h
    next r heq =>
      split at h
      next e2 heq2 => cases h
      next out2 heq2 =>
        simp only [Except.ok.injEq] at h
        subst h
        intro p hp
        rcases List.mem_cons.mp hp with he | hm
        · subst he
          exact ⟨r, heq, List.mem_cons_self _ _⟩
        · obtain ⟨r2, h1, h2⟩ := ih out2 heq2 p hm
          exact ⟨r2, h1, List.mem_cons_of_mem _ h2⟩

/-! ## Splitter claims -/

/-- C6 counterexample: an instrument whose `gui.type` is `"GENERIC"` — a
casing of "generic" other than the two literals the code compares against —
is *not* normalized: the splitter keeps `"GENERIC"`, which is not the
canonical default GUI class path.  The comparison is therefore not
case-insensitive. -/
theorem C6_counterexample :
    (processInstrument [("gui", Yaml.dict [("type", Yaml.str "GENERIC")])]).map
        SplitResult.guiCfg = .ok [("type", Yaml.str "GENERIC")] ∧
    Yaml.str "GENERIC" ≠ GUITYPE :=
  ⟨rfl, by decide⟩

/-- C6 amended: for every instrument whose `gui` sub-document has a `type`
field equal to exactly `"generic"` or `"Generic"` (the two literals the
code compares against, not an arbitrary casing), the splitter normalizes
the gui config's `type` to the canonical default GUI class path — both at
the single-instrument level and through `loadConfig`. -/
theorem C6_generic_exact_match_normalized (configDict guiDict : Doc) (t : Yaml)
    (hni : Doc.lookup configDict "initialize" ≠ some Yaml.null)
    (hg : Doc.lookup configDict "gui" = some (Yaml.dict guiDict))
    (ht : Doc.lookup guiDict "type" = some t)
    (hgen : t = Yaml.str "generic" ∨ t = Yaml.str "Generic") :
    (∃ r, processInstrument configDict = .ok r ∧
      Doc.lookup r.guiCfg "type" = some GUITYPE) ∧
    (∀ insts out name, loadConfig insts = .ok out → (name, configDict) ∈ insts →
      ∃ r, (name, r) ∈ out ∧ Doc.lookup r.guiCfg "type" = some GUITYPE) := by
  have hrem : ∃ srv rem1, extractServerFields SERVERFIELDS configDict = .ok (srv, rem1) ∧
      Doc.lookup rem1 "gui" = some (Yaml.dict guiDict) := by
    cases hv : Doc.lookup configDict "initialize" with
    | none => exact ⟨_, _, extractServer_eq_none configDict hv, hg⟩
    | some v =>
      have hvn : v ≠ Yaml.null := fun he2 => hni (by rw [hv, he2])
      refine ⟨_, _, extractServer_eq_some configDict v hv hvn, ?_⟩
      rw [Doc.lookup_pop_ne configDict "gui" "initialize" (by decide)]
      exact hg
  obtain ⟨srv, rem1, he, hg1⟩ := hrem
  have hpg : processGui rem1 = .ok (Doc.setKey guiDict "type" GUITYPE, Doc.pop rem1 "gui") := by
    simp only [processGui, hg1, ht]
    rw [if_pos hgen]
  have hfull : processInstrument configDict = .ok
      { serverCfg := srv
        guiCfg := Doc.setKey guiDict "type" GUITYPE
        fullCfg := Doc.mergeRight (Doc.mergeRight
            [("gui", Yaml.dict (Doc.setKey guiDict "type" GUITYPE))] (Doc.pop rem1 "gui")) srv
        residual := Doc.pop rem1 "gui" } := by
    simp only [processInstrument, he, hpg]
  have hmain : ∃ r, processInstrument configDict = .ok r ∧
      Doc.lookup r.guiCfg "type" = some GUITYPE :=
    ⟨_, hfull, Doc.lookup_setKey_self guiDict "type" GUITYPE⟩
  refine ⟨hmain, ?_⟩
  intro insts out name hlc hmem
  obtain ⟨r, hok, hlk⟩ := hmain
  obtain ⟨r2, hok2, hmem2⟩ := loadConfig_ok_of_mem insts out hlc (name, configDict) hmem
  rw [hok] at hok2
  have hr : r = r2 := Except.ok.inj hok2
  exact ⟨r2, hmem2, by rw [← hr]; exact hlk⟩

/-- C6 witness: a concrete instrument with `gui.type = "Generic"`. -/
theorem C6_generic_exact_match_normalized_witness :
    ∃ r, processInstrument [("gui", Yaml.dict [("type", Yaml.str "Generic")])] = .ok r ∧
      Doc.lookup r.guiCfg "type" = some GUITYPE :=
  (C6_generic_exact_match_normalized [("gui", Yaml.dict [("type", Yaml.str "Generic")])]
    [("type", Yaml.str "Generic")] (Yaml.str "Generic")
    (by decide) rfl rfl (Or.inr rfl)).1

/-- C7: for the recognized server-only field `initialize`: present but
explicitly null makes the splitter fail with the null-field
`AttributeError` (and `loadConfig` then never succeeds for a document
containing that instrument); absent yields the declared default
`true` in `serverConfig[name]`; present non-null yields the given
value. -/
theorem C7_server_field_null_default_value (d : Doc) :
    (Doc.lookup d "initialize" = some Yaml.null →
      processInstrument d = .error (.attributeError "\"initialize\" field cannot be None") ∧
      (∀ insts out name, (name, d) ∈ insts → loadConfig insts ≠ .ok out)) ∧
    (Doc.lookup d "initialize" = none →
      ∀ r, processInstrument d = .ok r → r.serverCfg = [("initialize", Yaml.bool true)]) ∧
    (∀ v, Doc.lookup d "initialize" = some v → v ≠ Yaml.null →
      ∀ r, processInstrument d = .ok r → r.serverCfg = [("initialize", v)]) := by
  refine ⟨?_, ?_, ?_⟩
  · intro h
    have he := extractServer_eq_null d h
    have hpe : processInstrument d =
        .error (.attributeError "\"initialize\" field cannot be None") := by
      simp only [processInstrument, he]
    refine ⟨hpe, ?_⟩
    intro insts out name hmem hlc
    obtain ⟨r, hok, _⟩ := loadConfig_ok_of_mem insts out hlc (name, d) hmem
    rw [hpe] at hok
    cases hok
  · intro h r hr
    obtain ⟨srv, rem1, gui, rem2, he, _, hreq⟩ := processInstrument_inv d r hr
    rw [extractServer_eq_none d h] at he
    simp only [Except.ok.injEq, Prod.mk.injEq] at he
    rw [hreq]
    exact he.1.symm
  · intro v h hn r hr
    obtain ⟨srv, rem1, gui, rem2, he, _, hreq⟩ := processInstrument_inv d r hr
    rw [extractServer_eq_some d v h hn] at he
    simp only [Except.ok.injEq, Prod.mk.injEq] at he
    rw [hreq]
    exact he.1.symm

/-- C7 witness: the three cases at concrete instruments. -/
theorem C7_server_field_null_default_value_witness :
    processInstrument [("initialize", Yaml.null)] =
      .error (.attributeError "\"initialize\" field cannot be None") ∧
    (SplitResult.mk [("initialize", Yaml.bool true)] GUIFIELD
      [("gui", Yaml.dict GUIFIELD), ("initialize", Yaml.bool true)] []).serverCfg =
      [("initialize", Yaml.bool true)] ∧
    (SplitResult.mk [("initialize", Yaml.bool false)] GUIFIELD
      [("gui", Yaml.dict GUIFIELD), ("initialize", Yaml.bool false)] []).serverCfg =
      [("initialize", Yaml.bool false)] := by
  refine ⟨((C7_server_field_null_default_value [("initialize", Yaml.null)]).1 rfl).1, ?_, ?_⟩
  · exact (C7_server_field_null_default_value ([] : Doc)).2.1 rfl
      (SplitResult.mk [("initialize", Yaml.bool true)] GUIFIELD
        [("gui", Yaml.dict GUIFIELD), ("initialize", Yaml.bool true)] []) rfl
  · exact (C7_server_field_null_default_value [("initialize", Yaml.bool false)]).2.2
      (Yaml.bool false) rfl (by decide)
      (SplitResult.mk [("initialize", Yaml.bool false)] GUIFIELD
        [("gui", Yaml.dict GUIFIELD), ("initialize", Yaml.bool false)] []) rfl

/-- Modelled from the spec: the claim's literal reading of
`fullConfig[name] = merge(guiConfig[name], remaining raw fields,
serverConfig[name])` — a flat dict merge of the three maps in that order,
later entries winning.  Compared against the code's `fullCfg`, which nests
the gui config under a `gui` key instead of merging its fields flat. -/
def fullConfigSpecMerge (r : SplitResult) : Doc :=
  Doc.mergeRight (Doc.mergeRight r.guiCfg r.residual) r.serverCfg

/-- Concrete instrument used to separate the two merge readings. -/
def c8instrument : Doc := [("address", Yaml.str "GPIB0::1")]

/-- The split the code produces for `c8instrument`. -/
def c8split : SplitResult :=
  { serverCfg := [("initialize", Yaml.bool true)]
    guiCfg := GUIFIELD
    fullCfg := [("gui", Yaml.dict GUIFIELD), ("address", Yaml.str "GPIB0::1"),
                ("initialize", Yaml.bool true)]
    residual := [("address", Yaml.str "GPIB0::1")] }

/-- C8 counterexample: the code's `fullConfig[name]` is not the flat merge
of `guiConfig[name]`, the remaining raw fields and `serverConfig[name]`:
the gui config is nested under the key `gui`, so for a gui-less instrument
the flat merge has a top-level `type` entry while the code's full config
has none. -/
theorem C8_counterexample :
    processInstrument c8instrument = .ok c8split ∧
    c8split.fullCfg ≠ fullConfigSpecMerge c8split ∧
    Doc.lookup c8split.fullCfg "type" = none ∧
    Doc.lookup (fullConfigSpecMerge c8split) "type" = some GUITYPE :=
  ⟨rfl, by decide, rfl, rfl⟩

/-- C8 amended: `fullConfig[name]` is the merge of the single entry
`gui ↦ guiConfig[name]` (the gui config nested under the `gui` key, not
flattened), the remaining raw fields, and `serverConfig[name]`, in that
order, so that server fields take precedence on key collisions. -/
theorem C8_full_merge_order (d : Doc) (r : SplitResult)
    (h : processInstrument d = .ok r) :
    r.fullCfg =
      Doc.mergeRight (Doc.mergeRight [("gui", Yaml.dict r.guiCfg)] r.residual) r.serverCfg ∧
    (∀ k v, Doc.lookup r.serverCfg k = some v → Doc.lookup r.fullCfg k = some v) := by
  obtain ⟨srv, rem1, gui, rem2, he, hpg, hreq⟩ := processInstrument_inv d r h
  obtain ⟨v, hsrv, hvn, _⟩ := extractServer_shape d srv rem1 he
  subst hreq
  subst hsrv
  refine ⟨rfl, ?_⟩
  intro k w hk
  by_cases hkk : ("initialize" : String) = k
  · subst hkk
    have hvw : v = w := by simpa [Doc.lookup] using hk
    subst hvw
    show Doc.lookup
      (Doc.setKey (Doc.mergeRight [("gui", Yaml.dict gui)] rem2) "initialize" v) "initialize" =
      some v
    exact Doc.lookup_setKey_self _ "initialize" v
  · exfalso
    simp [Doc.lookup, hkk] at hk

/-- C8 witness: the amended merge shape and precedence at a concrete
instrument. -/
theorem C8_full_merge_order_witness :
    c8split.fullCfg =
      Doc.mergeRight (Doc.mergeRight [("gui", Yaml.dict c8split.guiCfg)] c8split.residual)
        c8split.serverCfg ∧
    Doc.lookup c8split.fullCfg "initialize" = some (Yaml.bool true) := by
  have h := C8_full_merge_order c8instrument c8split rfl
  exact ⟨h.1, h.2 "initialize" (Yaml.bool true) rfl⟩

/-- C9: an instrument whose `gui` field is present but explicitly null
makes the splitter fail with the same null-field `AttributeError` family
used for server fields (the `gui` message, or the `initialize` one when
that field is also null) rather than substituting the default GUI
descriptor; consequently `loadConfig` never succeeds for a document
containing such an instrument. -/
theorem C9_gui_null_fails (d : Doc) (hg : Doc.lookup d "gui" = some Yaml.null) :
    (processInstrument d = .error (.attributeError "\"gui\" field cannot be None") ∨
     processInstrument d = .error (.attributeError "\"initialize\" field cannot be None")) ∧
    (∀ insts out name, (name, d) ∈ insts → loadConfig insts ≠ .ok out) := by
  have hsplit : processInstrument d = .error (.attributeError "\"gui\" field cannot be None") ∨
      processInstrument d = .error (.attributeError "\"initialize\" field cannot be None") := by
    rcases hv : Doc.lookup d "initialize" with _ | v
    · left
      have he := extractServer_eq_none d hv
      have hpg : processGui d = .error (.attributeError "\"gui\" field cannot be None") := by
        simp only [processGui, hg]
      simp only [processInstrument, he, hpg]
    · by_cases hn : v = Yaml.null
      · right
        subst hn
        have he := extractServer_eq_null d hv
        simp only [processInstrument, he]
      · left
        have he := extractServer_eq_some d v hv hn
        have hg1 : Doc.lookup (Doc.pop d "initialize") "gui" = some Yaml.null := by
          rw [Doc.lookup_pop_ne d "gui" "initialize" (by decide)]
          exact hg
        have hpg : processGui (Doc.pop d "initialize") =
            .error (.attributeError "\"gui\" field cannot be None") := by
          simp only [processGui, hg1]
        simp only [processInstrument, he, hpg]
  refine ⟨hsplit, ?_⟩
  intro insts out name hmem hlc
  obtain ⟨r, hok, _⟩ := loadConfig_ok_of_mem insts out hlc (name, d) hmem
  rcases hsplit with hh | hh <;> rw [hh] at hok <;> cases hok

/-- C9 witness: a concrete instrument with a null `gui` field. -/
theorem C9_gui_null_fails_witness :
    processInstrument [("gui", Yaml.null)] =
      .error (.attributeError "\"gui\" field cannot be None") ∨
    processInstrument [("gui", Yaml.null)] =
      .error (.attributeError "\"initialize\" field cannot be None") :=
  (C9_gui_null_fails [("gui", Yaml.null)] rfl).1

/-- C10 witness: a concrete never-connected session. -/
theorem C10_disconnect_before_connect_fails_witness :
    (BaseClient.init "localhost" 5555 false 100 true).disconnect =
      .error (.attributeError "NoneType object has no attribute close") :=
  (C10_disconnect_before_connect_fails "localhost" 5555 100 true).2.1
